import Mathlib

/-! Verification of skbot: the camera session coordinator.

A shallow embedding of `camera.go` and of `captureAndSave` (`main.go`).

The physical camera, the writers handed to the coordinator and the image
codecs are external to the repository.  They are represented by a device
double (`World`) that records every operation in call order, and by scripts
that fix, for one call, the result of each external step.  The control flow
of every embedded function (early returns, deferred calls, ignored results)
follows the Go source line by line.
-/

namespace Skbot

/-! ## Data model -/

abbrev Byte := Fin 256

abbrev Bytes := List Byte

/-- A Go `error` value: either an error produced by an external library, or
`fmt.Errorf(ctx + ": %w", inner)`. -/
inductive GoError where
  | msg (text : String)
  | wrap (ctx : String) (inner : GoError)
  deriving DecidableEq, Repr

/-- The `Error()` method: `fmt.Errorf("ctx: %w", inner)` renders as the
context, a colon, a blank and the rendering of the wrapped error. -/
def GoError.Error : GoError → String
  | .msg text => text
  | .wrap ctx inner => ctx ++ ": " ++ inner.Error

/-- The `errors.Unwrap` function: the error wrapped by `%w`, if any. -/
def GoError.Unwrap : GoError → Option GoError
  | .msg _ => none
  | .wrap _ inner => some inner

/-- A value returned by a settings widget `Get()`; the Go type is
`interface{}` and `NewCamera` asserts it to be a string. -/
inductive SettingValue where
  | str (s : String)
  | other
  deriving DecidableEq, Repr

/-- Operations observed by the device double, in call order.  Mutex and codec
calls are recorded in the same trace so that their position relative to the
device operations can be stated. -/
inductive Event where
  | lock
  | unlock
  | newCamera (name : String)
  | loadWidgets
  | getIso
  | setIso (v : String)
  | camExit
  | camFree
  | capturePreview
  | captureImage
  | downloadImage (leaveOnCamera : Bool)
  | copyRaw
  | cr2Decode
  | jpegEncode
  deriving DecidableEq, Repr

/-- The device double: the value of the `imgsettings/iso` widget and the
trace of operations.  A `Set` on the widget takes effect. -/
structure World where
  iso : SettingValue
  log : List Event
  deriving DecidableEq, Repr

/-- Append one operation to the trace. -/
def World.record (w : World) (e : Event) : World :=
  { w with log := w.log ++ [e] }

/-- The `Camera` struct; the mutex and the device handle live in `World`. -/
structure Camera where
  originalIso : String
  deriving DecidableEq, Repr

/-- The `gphoto2.CameraFilePath` descriptor returned by `CaptureImage`. -/
structure CameraFilePath where
  Name : String
  Folder : String
  deriving DecidableEq, Repr

/-- A decoded image: its bounds and pixel data. -/
structure Image where
  width : Nat
  height : Nat
  pix : Bytes
  deriving DecidableEq, Repr

/-- The external codecs as pure functions: `cr2.Decode`, the encoder of
`jpeg.Encode` and `jpeg.Decode`. -/
structure Codec where
  cr2Decode : Bytes → Except GoError Image
  jpegEncode : Image → Except GoError Bytes
  jpegDecode : Bytes → Except GoError Image

/-- Results of the external steps of `NewCamera`. -/
structure ConnectScript where
  connectErr : Option GoError
  getErr : Option GoError

/-- Results of the external steps of one `CaptureDownloadMulti` call.
`download` is what `DownloadImage` hands to its writer and what it returns;
`rawCopy` and `jpegWrite` say whether the writer fails, and after how many
bytes. -/
structure StillScript where
  exitErr : Option GoError
  capture : Except GoError CameraFilePath
  download : Bytes × Option GoError
  rawCopy : Option (Nat × GoError)
  jpegWrite : Option (Nat × GoError)

/-- Result of the device's live-view capture for one `CapturePreview` call:
the bytes written to the buffer and the returned error. -/
structure PreviewScript where
  frame : Bytes × Option GoError

/-- The two writers of `CaptureDownloadMulti`, as the bytes written so far. -/
structure Sinks where
  bufRaw : Bytes
  bufJpeg : Bytes
  deriving DecidableEq, Repr

/-- What a coordinator call leaves behind: returned error, device double and
writers. -/
structure StillResult where
  err : Option GoError
  world : World
  sinks : Sinks
  deriving DecidableEq, Repr

/-- How `NewCamera` ends: a session, an error, or a failed type assertion. -/
inductive NewCameraResult where
  | ok (c : Camera)
  | error (e : GoError)
  | panicked
  deriving DecidableEq, Repr

/-! ## Library functions used by the source -/

/-- Go `strings.HasSuffix`:
`len(s) >= len(suffix) && s[len(s)-len(suffix):] == suffix`. -/
def HasSuffix (s suffix : String) : Bool :=
  decide (s.data.length ≥ suffix.data.length) &&
    s.data.drop (s.data.length - suffix.data.length) == suffix.data

/-- Go `io.Copy(dst, bytes.NewReader(src))`: an empty source writes nothing
and succeeds; otherwise one `Write` of all of `src`, which either accepts
everything or fails after `n` bytes. -/
def ioCopy (dst src : Bytes) (outcome : Option (Nat × GoError)) : Bytes × Option GoError :=
  if src.isEmpty then (dst, none)
  else
    match outcome with
    | none => (dst ++ src, none)
    | some (n, err) => (dst ++ src.take n, some err)

/-! ## camera.go -/

/-- Method `Camera.setAuto`: write "Auto", or the saved value, to the iso widget;
the result of `Set` is dropped. -/
def setAuto (c : Camera) (auto : Bool) (w : World) : World :=
  let newIso := if auto then "Auto" else c.originalIso
  { iso := .str newIso, log := w.log ++ [.setIso newIso] }

/-- Function `NewCamera`: connect, load the widgets, read iso, assert it is a string,
store it and switch the device to Auto. -/
def NewCamera (name : String) (sc : ConnectScript) (w : World) : NewCameraResult × World :=
  let w := w.record (.newCamera name)
  match sc.connectErr with
  | some err => (.error err, w)
  | none =>
    let w := w.record .loadWidgets
    let w := w.record .getIso
    match sc.getErr with
    | some err => (.error (.wrap "error reading ISO value" err), w)
    | none =>
      match w.iso with
      | .other => (.panicked, w)
      | .str isoStr =>
        let c : Camera := { originalIso := isoStr }
        (.ok c, setAuto c true w)

/-- The device's `Exit()` (disconnect): recorded in the trace; its result is
the scripted one. -/
def camExit (exitErr : Option GoError) (w : World) : Option GoError × World :=
  (exitErr, w.record .camExit)

/-- Method `Camera.Exit`; the result of `c.cam.Exit()` is dropped. -/
def Exit (_c : Camera) (exitErr : Option GoError) (w : World) : World :=
  let w := w.record .lock
  let w := (camExit exitErr w).2
  w.record .unlock

/-- Method `Camera.Cleanup`: restore the saved iso, disconnect (result dropped) and
free. -/
def Cleanup (c : Camera) (exitErr : Option GoError) (w : World) : World :=
  let w := w.record .lock
  let w := setAuto c false w
  let w := (camExit exitErr w).2
  let w := w.record .camFree
  w.record .unlock

/-- Method `Camera.CapturePreview`: lock, live-view capture into the buffer,
unlock; the device error is returned as it is. -/
def CapturePreview (_c : Camera) (sc : PreviewScript) (buffer : Bytes) (w : World) :
    Option GoError × World × Bytes :=
  let w := w.record .lock
  let w := w.record .capturePreview
  (sc.frame.2, w.record .unlock, buffer ++ sc.frame.1)

/-- The statements of `CaptureDownloadMulti` from `c.cam.CaptureImage()` to
its returns, before the deferred calls run. -/
def captureDownloadBody (codec : Codec) (sc : StillScript) (leaveOnCamera : Bool)
    (w : World) (s : Sinks) : StillResult :=
  let w := w.record .captureImage
  match sc.capture with
  | .error err => ⟨some (.wrap "error capturing image" err), w, s⟩
  | .ok cim =>
    if HasSuffix cim.Name ".jpg" then
      let w := w.record (.downloadImage leaveOnCamera)
      ⟨sc.download.2, w, { s with bufJpeg := s.bufJpeg ++ sc.download.1 }⟩
    else
      let w := w.record (.downloadImage leaveOnCamera)
      let buf := sc.download.1
      match sc.download.2 with
      | some err => ⟨some (.wrap "error downloading image from camera" err), w, s⟩
      | none =>
        let w := w.record .copyRaw
        let copied := ioCopy s.bufRaw buf sc.rawCopy
        let s := { s with bufRaw := copied.1 }
        match copied.2 with
        | some err => ⟨some (.wrap "error writing raw file" err), w, s⟩
        | none =>
          let w := w.record .cr2Decode
          match codec.cr2Decode buf with
          | .error err => ⟨some (.wrap "error decoding CR2 image" err), w, s⟩
          | .ok im =>
            let w := w.record .jpegEncode
            match codec.jpegEncode im with
            | .error err => ⟨some (.wrap "error encoding JPEG image" err), w, s⟩
            | .ok enc =>
              match sc.jpegWrite with
              | some (n, err) =>
                ⟨some (.wrap "error encoding JPEG image" err), w,
                  { s with bufJpeg := s.bufJpeg ++ enc.take n }⟩
              | none => ⟨none, w, { s with bufJpeg := s.bufJpeg ++ enc }⟩

/-- Method `Camera.CaptureDownloadMulti`: lock, switch to the saved iso, disconnect
the live view (result dropped), run the body, then the deferred calls in
reverse order of registration: `setAuto(true)` and `Unlock`. -/
def CaptureDownloadMulti (codec : Codec) (c : Camera) (sc : StillScript)
    (bufRaw bufJpeg : Bytes) (leaveOnCamera : Bool) (w : World) : StillResult :=
  let w := w.record .lock
  let w := setAuto c false w
  let w := (camExit sc.exitErr w).2
  let r := captureDownloadBody codec sc leaveOnCamera w ⟨bufRaw, bufJpeg⟩
  let w := setAuto c true r.world
  let w := w.record .unlock
  ⟨r.err, w, r.sinks⟩

/-! ## main.go -/

/-- Results of the external steps of one `captureAndSave` call: the clock,
the two `os.Create` calls, the still capture, and the two final copies
(whose results the source drops). -/
structure SaveScript where
  timestamp : String
  createRaw : Option GoError
  createJpg : Option GoError
  still : StillScript
  copyResponse : Option (Nat × GoError)
  copyFile : Option (Nat × GoError)

/-- What `captureAndSave` leaves behind: its two return values, the device
double, the response writer, and the created files with their contents. -/
structure SaveResult where
  fname : String
  err : Option GoError
  world : World
  wJpg : Bytes
  fRaw : Option (String × Bytes)
  fJpg : Option (String × Bytes)
  deriving DecidableEq, Repr

/-- The package variable `capturesFolder`. -/
def capturesFolder : String := "captures"

/-- Function `captureAndSave`: create the two files, capture into the raw file and a
buffer, then copy the buffer to the response writer and to the jpg file. -/
def captureAndSave (codec : Codec) (c : Camera) (sc : SaveScript) (wJpg : Bytes)
    (w : World) : SaveResult :=
  let fnameRaw := capturesFolder ++ "/" ++ sc.timestamp ++ ".cr2"
  let fnameJpg := capturesFolder ++ "/" ++ sc.timestamp ++ ".jpg"
  match sc.createRaw with
  | some err => ⟨"", some (.wrap "error creating output raw file" err), w, wJpg, none, none⟩
  | none =>
    match sc.createJpg with
    | some err =>
      ⟨"", some (.wrap "error creating output jpg file" err), w, wJpg, some (fnameRaw, []), none⟩
    | none =>
      let r := CaptureDownloadMulti codec c sc.still [] [] true w
      match r.err with
      | some err =>
        ⟨"", some (.wrap "error capturing image" err), r.world, wJpg,
          some (fnameRaw, r.sinks.bufRaw), some (fnameJpg, [])⟩
      | none =>
        let buf := r.sinks.bufJpeg
        let wJpg := (ioCopy wJpg buf sc.copyResponse).1
        let fJpg := (ioCopy [] buf sc.copyFile).1
        ⟨fnameRaw, none, r.world, wJpg, some (fnameRaw, r.sinks.bufRaw), some (fnameJpg, fJpg)⟩

/-! ## Call sequences -/

/-- One coordinator call of a sequential test: a preview or a still capture,
with the script of its external steps and the writers it is given. -/
inductive Call where
  | preview (sc : PreviewScript) (buffer : Bytes)
  | still (sc : StillScript) (bufRaw bufJpeg : Bytes) (leaveOnCamera : Bool)

/-- The device double after one call returns. -/
def runCall (codec : Codec) (c : Camera) (call : Call) (w : World) : World :=
  match call with
  | .preview sc buffer => (CapturePreview c sc buffer w).2.1
  | .still sc bufRaw bufJpeg leaveOnCamera =>
    (CaptureDownloadMulti codec c sc bufRaw bufJpeg leaveOnCamera w).world

/-- The device double after a sequence of calls, each started after the
previous one returned. -/
def runCalls (codec : Codec) (c : Camera) (calls : List Call) (w : World) : World :=
  calls.foldl (fun w call => runCall codec c call w) w

/-- The iso values written to the device, in order. -/
def isoWrites (log : List Event) : List String :=
  log.filterMap (fun e => match e with
    | .setIso v => some v
    | _ => none)

/-- The iso values one call is expected to write: none for a preview, the
saved value and then "Auto" for a still capture. -/
def callWrites (c : Camera) : Call → List String
  | .preview _ _ => []
  | .still _ _ _ _ => [c.originalIso, "Auto"]

/-- The contexts `CaptureDownloadMulti` puts in front of the error of a
failed trigger, download, raw decode and JPEG encode. -/
def stepContexts : List String :=
  ["error capturing image", "error downloading image from camera",
    "error decoding CR2 image", "error encoding JPEG image"]

/-! ## Test fixtures -/

/-- A toy codec: a raw file is a width byte, a height byte and pixels; the
encoder prefixes a marker byte. -/
def toyCodec : Codec where
  cr2Decode := fun b =>
    match b with
    | wd :: ht :: pix => .ok ⟨wd.val, ht.val, pix⟩
    | _ => .error (.msg "cr2: short file")
  jpegEncode := fun im =>
    if im.width < 256 ∧ im.height < 256 then
      .ok (0xFF :: Fin.ofNat im.width :: Fin.ofNat im.height :: im.pix)
    else .error (.msg "jpeg: image is too large to encode")
  jpegDecode := fun b =>
    match b with
    | _ :: wd :: ht :: pix => .ok ⟨wd.val, ht.val, pix⟩
    | _ => .error (.msg "jpeg: short file")

/-- A device whose iso widget reads "400", with an empty trace. -/
def world400 : World := ⟨.str "400", []⟩

/-- The session `NewCamera` creates on `world400`. -/
def cam400 : Camera := ⟨"400"⟩

/-- A script in which every step succeeds on a raw descriptor. -/
def rawScript : StillScript :=
  ⟨none, .ok ⟨"IMG_0001.cr2", "/"⟩, ([2, 1, 7, 9], none), none, none⟩

/-- A script whose trigger fails. -/
def triggerFailScript : StillScript :=
  ⟨none, .error (.msg "gphoto2: could not capture"), ([], none), none, none⟩

/-- A jpg script whose pre-capture disconnect fails and whose other steps
succeed. -/
def exitFailScript : StillScript :=
  ⟨some (.msg "gphoto2: I/O problem"), .ok ⟨"IMG_0002.jpg", "/"⟩, ([5, 6, 7], none), none, none⟩

/-- A raw script whose download yields a file too short to decode. -/
def decodeFailScript : StillScript :=
  ⟨none, .ok ⟨"IMG_0003.cr2", "/"⟩, ([9], none), none, none⟩

/-- A `captureAndSave` script: both files are created, the trigger fails. -/
def saveTriggerFailScript : SaveScript :=
  ⟨"20240101_120000", none, none, triggerFailScript, none, none⟩

/-- A preview script delivering a two-byte frame. -/
def frameScript : PreviewScript := ⟨([1, 2], none)⟩

/-- A test sequence interleaving previews with a good and a failing still
capture. -/
def mixedCalls : List Call :=
  [.preview frameScript [], .still rawScript [] [] true, .preview frameScript [],
    .still triggerFailScript [] [] true, .preview frameScript []]

/-- A script in which every step succeeds on a jpg descriptor. -/
def jpgScript : StillScript :=
  ⟨none, .ok ⟨"IMG_0001.jpg", "/"⟩, ([5, 6, 7], none), none, none⟩

/-! ## Shared lemmas -/

/-- Events the body of a still capture can record after the trigger. -/
def bodyEvents (leaveOnCamera : Bool) : List Event :=
  [.downloadImage leaveOnCamera, .copyRaw, .cr2Decode, .jpegEncode]

theorem record_log (w : World) (e : Event) : (w.record e).log = w.log ++ [e] := rfl

theorem record_iso (w : World) (e : Event) : (w.record e).iso = w.iso := rfl

theorem setAuto_iso (c : Camera) (auto : Bool) (w : World) :
    (setAuto c auto w).iso = .str (if auto then "Auto" else c.originalIso) := rfl

theorem setAuto_log (c : Camera) (auto : Bool) (w : World) :
    (setAuto c auto w).log = w.log ++ [.setIso (if auto then "Auto" else c.originalIso)] := rfl

theorem camExit_world (exitErr : Option GoError) (w : World) :
    (camExit exitErr w).2 = w.record .camExit := rfl

/-- The body of a still capture records the trigger and then only download,
copy and codec events. -/
theorem captureDownloadBody_log (codec : Codec) (sc : StillScript) (leaveOnCamera : Bool)
    (w : World) (s : Sinks) :
    ∃ seg, (captureDownloadBody codec sc leaveOnCamera w s).world.log
        = w.log ++ .captureImage :: seg ∧ ∀ e ∈ seg, e ∈ bodyEvents leaveOnCamera := by
  cases hcap : sc.capture with
  | error err => exact ⟨[], by simp [captureDownloadBody, hcap, record_log], by simp⟩
  | ok cim =>
    by_cases hs : HasSuffix cim.Name ".jpg" = true
    · exact ⟨[.downloadImage leaveOnCamera],
        by simp [captureDownloadBody, hcap, hs, record_log], by simp [bodyEvents]⟩
    · cases hdl : sc.download.2 with
      | some err =>
        exact ⟨[.downloadImage leaveOnCamera],
          by simp [captureDownloadBody, hcap, hs, hdl, record_log], by simp [bodyEvents]⟩
      | none =>
        cases hcp : (ioCopy s.bufRaw sc.download.1 sc.rawCopy).2 with
        | some err =>
          exact ⟨[.downloadImage leaveOnCamera, .copyRaw],
            by simp [captureDownloadBody, hcap, hs, hdl, hcp, record_log], by simp [bodyEvents]⟩
        | none =>
          cases hdec : codec.cr2Decode sc.download.1 with
          | error err =>
            exact ⟨[.downloadImage leaveOnCamera, .copyRaw, .cr2Decode],
              by simp [captureDownloadBody, hcap, hs, hdl, hcp, hdec, record_log],
              by simp [bodyEvents]⟩
          | ok im =>
            refine ⟨[.downloadImage leaveOnCamera, .copyRaw, .cr2Decode, .jpegEncode], ?_,
              by simp [bodyEvents]⟩
            cases henc : codec.jpegEncode im with
            | error err => simp [captureDownloadBody, hcap, hs, hdl, hcp, hdec, henc, record_log]
            | ok enc =>
              cases hw : sc.jpegWrite with
              | none => simp [captureDownloadBody, hcap, hs, hdl, hcp, hdec, henc, hw, record_log]
              | some p =>
                simp [captureDownloadBody, hcap, hs, hdl, hcp, hdec, henc, hw, record_log]

/-- The body of a still capture does not touch the iso widget. -/
theorem captureDownloadBody_iso (codec : Codec) (sc : StillScript) (leaveOnCamera : Bool)
    (w : World) (s : Sinks) :
    (captureDownloadBody codec sc leaveOnCamera w s).world.iso = w.iso := by
  cases hcap : sc.capture with
  | error err => simp [captureDownloadBody, hcap, record_iso]
  | ok cim =>
    by_cases hs : HasSuffix cim.Name ".jpg" = true
    · simp [captureDownloadBody, hcap, hs, record_iso]
    · cases hdl : sc.download.2 with
      | some err => simp [captureDownloadBody, hcap, hs, hdl, record_iso]
      | none =>
        cases hcp : (ioCopy s.bufRaw sc.download.1 sc.rawCopy).2 with
        | some err => simp [captureDownloadBody, hcap, hs, hdl, hcp, record_iso]
        | none =>
          cases hdec : codec.cr2Decode sc.download.1 with
          | error err => simp [captureDownloadBody, hcap, hs, hdl, hcp, hdec, record_iso]
          | ok im =>
            cases henc : codec.jpegEncode im with
            | error err => simp [captureDownloadBody, hcap, hs, hdl, hcp, hdec, henc, record_iso]
            | ok enc =>
              cases hw : sc.jpegWrite with
              | none => simp [captureDownloadBody, hcap, hs, hdl, hcp, hdec, henc, hw, record_iso]
              | some p =>
                simp [captureDownloadBody, hcap, hs, hdl, hcp, hdec, henc, hw, record_iso]

/-- After a still capture returns, the iso widget reads "Auto". -/
theorem CaptureDownloadMulti_iso (codec : Codec) (c : Camera) (sc : StillScript)
    (bufRaw bufJpeg : Bytes) (leaveOnCamera : Bool) (w : World) :
    (CaptureDownloadMulti codec c sc bufRaw bufJpeg leaveOnCamera w).world.iso
      = .str "Auto" := rfl

/-- The trace of a still capture: lock, the saved iso, disconnect, trigger,
then download, copy and codec events only, then "Auto", then unlock. -/
theorem CaptureDownloadMulti_log (codec : Codec) (c : Camera) (sc : StillScript)
    (bufRaw bufJpeg : Bytes) (leaveOnCamera : Bool) (w : World) :
    ∃ seg, (CaptureDownloadMulti codec c sc bufRaw bufJpeg leaveOnCamera w).world.log
        = w.log ++ [.lock, .setIso c.originalIso, .camExit, .captureImage] ++ seg
            ++ [.setIso "Auto", .unlock]
      ∧ ∀ e ∈ seg, e ∈ bodyEvents leaveOnCamera := by
  obtain ⟨seg, hseg, hmem⟩ := captureDownloadBody_log codec sc leaveOnCamera
    ((camExit sc.exitErr (setAuto c false (w.record .lock))).2) ⟨bufRaw, bufJpeg⟩
  refine ⟨seg, ?_, hmem⟩
  simp only [camExit_world] at hseg
  simp only [CaptureDownloadMulti, record_log, setAuto_log, hseg, camExit_world]
  simp

/-- A preview leaves the iso widget as it found it. -/
theorem CapturePreview_iso (c : Camera) (sc : PreviewScript) (buffer : Bytes) (w : World) :
    (CapturePreview c sc buffer w).2.1.iso = w.iso := rfl

/-- The trace of a preview: lock, live-view capture, unlock. -/
theorem CapturePreview_log (c : Camera) (sc : PreviewScript) (buffer : Bytes) (w : World) :
    (CapturePreview c sc buffer w).2.1.log = w.log ++ [.lock, .capturePreview, .unlock] := by
  simp [CapturePreview, record_log]

/-- When `NewCamera` returns a session, both external steps succeeded, the
widget held a string, which is the saved value, and the device was switched
to "Auto" after connect, widget load and read. -/
theorem NewCamera_ok (name : String) (cs : ConnectScript) (w0 w1 : World) (c : Camera)
    (h : NewCamera name cs w0 = (.ok c, w1)) :
    (cs.connectErr = none ∧ cs.getErr = none ∧
      w1 = setAuto c true
        (((w0.record (.newCamera name)).record .loadWidgets).record .getIso)) ∧
    w0.iso = .str c.originalIso := by
  cases hc : cs.connectErr with
  | some err => simp [NewCamera, hc] at h
  | none =>
    cases hg : cs.getErr with
    | some err => simp [NewCamera, hc, hg] at h
    | none =>
      cases hi : w0.iso with
      | other => simp [NewCamera, hc, hg, record_iso, hi] at h
      | str v =>
        simp only [NewCamera, hc, hg, record_iso, hi, Prod.mk.injEq,
          NewCameraResult.ok.injEq] at h
        obtain ⟨h1, h2⟩ := h
        subst h1
        exact ⟨⟨rfl, rfl, h2.symm⟩, rfl⟩

/-- A session returned by `NewCamera` leaves the iso widget at "Auto". -/
theorem NewCamera_iso (name : String) (cs : ConnectScript) (w0 w1 : World) (c : Camera)
    (h : NewCamera name cs w0 = (.ok c, w1)) : w1.iso = .str "Auto" := by
  obtain ⟨hc, _⟩ := NewCamera_ok name cs w0 w1 c h
  rw [hc.2.2]
  rfl

/-- Calls started with the iso widget at "Auto" leave it at "Auto". -/
theorem runCalls_iso (codec : Codec) (c : Camera) (calls : List Call) (w : World)
    (h : w.iso = .str "Auto") : (runCalls codec c calls w).iso = .str "Auto" := by
  induction calls generalizing w with
  | nil => exact h
  | cons call rest ih =>
    simp only [runCalls, List.foldl_cons]
    apply ih
    cases call with
    | preview sc buffer => simpa [runCall, CapturePreview_iso] using h
    | still sc bufRaw bufJpeg leaveOnCamera => exact CaptureDownloadMulti_iso ..

theorem isoWrites_append (xs ys : List Event) :
    isoWrites (xs ++ ys) = isoWrites xs ++ isoWrites ys := by
  simp [isoWrites, List.filterMap_append]

/-- Download, copy and codec events write no iso value. -/
theorem isoWrites_bodyEvents (leaveOnCamera : Bool) (seg : List Event)
    (h : ∀ e ∈ seg, e ∈ bodyEvents leaveOnCamera) : isoWrites seg = [] := by
  induction seg with
  | nil => rfl
  | cons e rest ih =>
    have he := h e (List.mem_cons_self _ _)
    have hrest := ih (fun x hx => h x (List.mem_cons_of_mem _ hx))
    simp only [bodyEvents, List.mem_cons, List.mem_singleton, List.not_mem_nil, or_false] at he
    rcases he with rfl | rfl | rfl | rfl <;> simpa [isoWrites] using hrest

/-- The iso values a still capture writes are the saved value, then "Auto". -/
theorem CaptureDownloadMulti_isoWrites (codec : Codec) (c : Camera) (sc : StillScript)
    (bufRaw bufJpeg : Bytes) (leaveOnCamera : Bool) (w : World) :
    isoWrites (CaptureDownloadMulti codec c sc bufRaw bufJpeg leaveOnCamera w).world.log
      = isoWrites w.log ++ [c.originalIso, "Auto"] := by
  obtain ⟨seg, hlog, hmem⟩ := CaptureDownloadMulti_log codec c sc bufRaw bufJpeg leaveOnCamera w
  rw [hlog]
  simp only [isoWrites_append, isoWrites_bodyEvents leaveOnCamera seg hmem]
  simp [isoWrites]

/-- The iso values written by a sequence of calls. -/
theorem runCalls_isoWrites (codec : Codec) (c : Camera) (calls : List Call) (w : World) :
    isoWrites (runCalls codec c calls w).log
      = isoWrites w.log ++ (calls.map (callWrites c)).flatten := by
  induction calls generalizing w with
  | nil => simp [runCalls]
  | cons call rest ih =>
    have hstep : isoWrites (runCall codec c call w).log
        = isoWrites w.log ++ callWrites c call := by
      cases call with
      | preview sc buffer =>
        simp [runCall, CapturePreview_log, isoWrites_append, callWrites, isoWrites]
      | still sc bufRaw bufJpeg leaveOnCamera =>
        simpa [runCall, callWrites] using
          CaptureDownloadMulti_isoWrites codec c sc bufRaw bufJpeg leaveOnCamera w
    have := ih (runCall codec c call w)
    simp only [runCalls, List.foldl_cons] at this ⊢
    rw [this, hstep]
    simp

/-- The toy codec keeps the bounds across an encode/decode round trip. -/
theorem toyCodec_round_trip (i : Image) (bs : Bytes) (h : toyCodec.jpegEncode i = .ok bs) :
    ∃ j, toyCodec.jpegDecode bs = .ok j ∧ j.width = i.width ∧ j.height = i.height := by
  simp only [toyCodec] at h ⊢
  split at h
  · rename_i hb
    simp only [Except.ok.injEq] at h
    subst h
    refine ⟨_, rfl, ?_, ?_⟩
    · simp [Fin.ofNat, Nat.mod_eq_of_lt hb.1]
    · simp [Fin.ofNat, Nat.mod_eq_of_lt hb.2]
  · simp at h

/-- A copy that reports no error has appended the whole source. -/
theorem ioCopy_ok (dst src : Bytes) (outcome : Option (Nat × GoError))
    (h : (ioCopy dst src outcome).2 = none) : (ioCopy dst src outcome).1 = dst ++ src := by
  unfold ioCopy at h ⊢
  cases src with
  | nil => simp
  | cons x xs =>
    cases outcome with
    | none => simp
    | some p => simp at h

/-- Two wrapped errors whose contexts differ within their first `n`
characters render differently, whatever they wrap. -/
theorem wrap_Error_ne (c1 c2 : String) (n : Nat) (e1 e2 : GoError)
    (h1 : n ≤ c1.length) (h2 : n ≤ c2.length) (hne : c1.data.take n ≠ c2.data.take n) :
    (GoError.wrap c1 e1).Error ≠ (GoError.wrap c2 e2).Error := by
  intro h
  apply hne
  have h3 := congrArg (fun s => s.data.take n) h
  simp only [GoError.Error, String.data_append, List.append_assoc] at h3
  rwa [List.take_append_of_le_length h1, List.take_append_of_le_length h2] at h3

/-- The trace of `Cleanup`. -/
theorem Cleanup_log (c : Camera) (exitErr : Option GoError) (w : World) :
    (Cleanup c exitErr w).log
      = w.log ++ [.lock, .setIso c.originalIso, .camExit, .camFree, .unlock] := by
  simp [Cleanup, record_log, setAuto_log, camExit_world]

/-! ## Claims -/

/-- C1: for a session created by `NewCamera` and any sequence of preview and
still-capture calls, whatever the scripted results of the external steps:
the iso widget reads "Auto" after every call of the sequence has returned
(and right after connect); a preview records exactly lock, live-view capture,
unlock, so it writes no iso value; a still capture records lock, the write of
the saved value, then operations that are neither iso writes nor mutex
operations, then the write of "Auto" immediately followed by unlock; and the
iso values written over the whole sequence are the saved value and "Auto",
once per still capture. -/
theorem sensitivity_auto_after_every_call (codec : Codec) (name : String)
    (cs : ConnectScript) (w0 w1 : World) (c : Camera) (calls : List Call)
    (hconn : NewCamera name cs w0 = (.ok c, w1)) :
    (∀ k, (runCalls codec c (calls.take k) w1).iso = .str "Auto") ∧
    (∀ (sc : PreviewScript) (buffer : Bytes) (w : World),
      (CapturePreview c sc buffer w).2.1.log = w.log ++ [.lock, .capturePreview, .unlock]) ∧
    (∀ (sc : StillScript) (bufRaw bufJpeg : Bytes) (leaveOnCamera : Bool) (w : World),
      ∃ mid, (CaptureDownloadMulti codec c sc bufRaw bufJpeg leaveOnCamera w).world.log
          = w.log ++ [.lock, .setIso c.originalIso] ++ mid ++ [.setIso "Auto", .unlock]
        ∧ ∀ e ∈ mid, e ≠ .lock ∧ e ≠ .unlock ∧ ∀ v, e ≠ .setIso v) ∧
    isoWrites (runCalls codec c calls w1).log
      = isoWrites w1.log ++ (calls.map (callWrites c)).flatten := by
  refine ⟨fun k => runCalls_iso codec c _ w1 (NewCamera_iso name cs w0 w1 c hconn),
    fun sc buffer w => CapturePreview_log c sc buffer w, ?_,
    runCalls_isoWrites codec c calls w1⟩
  intro sc bufRaw bufJpeg leaveOnCamera w
  obtain ⟨seg, hlog, hmem⟩ := CaptureDownloadMulti_log codec c sc bufRaw bufJpeg leaveOnCamera w
  refine ⟨[.camExit, .captureImage] ++ seg, by simp [hlog], ?_⟩
  intro e he
  simp only [List.cons_append, List.nil_append, List.mem_cons] at he
  rcases he with rfl | rfl | he
  · simp
  · simp
  · have := hmem e he
    simp only [bodyEvents, List.mem_cons, List.mem_singleton, List.not_mem_nil, or_false] at this
    rcases this with rfl | rfl | rfl | rfl <;> simp

/-- Witness for C1: the session on a device reading "400" and a sequence of
three previews, a successful still capture and one whose trigger fails. -/
theorem sensitivity_auto_after_every_call_witness :
    NewCamera "" ⟨none, none⟩ world400
        = (.ok cam400, (NewCamera "" ⟨none, none⟩ world400).2) ∧
    (∀ k, (runCalls toyCodec cam400 (mixedCalls.take k)
        (NewCamera "" ⟨none, none⟩ world400).2).iso = .str "Auto") ∧
    isoWrites (runCalls toyCodec cam400 mixedCalls (NewCamera "" ⟨none, none⟩ world400).2).log
      = ["Auto", "400", "Auto", "400", "Auto"] :=
  ⟨rfl,
    (sensitivity_auto_after_every_call toyCodec "" ⟨none, none⟩ world400 _ cam400
      mixedCalls rfl).1,
    (sensitivity_auto_after_every_call toyCodec "" ⟨none, none⟩ world400 _ cam400
      mixedCalls rfl).2.2.2.trans (by decide)⟩

/-- C2: when the descriptor name ends in ".jpg" and trigger and download
succeed with bytes `b`, a still capture returns no error, leaves the raw
writer as it was, appends exactly `b` to the jpeg writer, and its trace is
lock, saved iso, disconnect, trigger, download, "Auto", unlock: neither the
raw decoder nor the JPEG encoder is called. -/
theorem still_jpg_descriptor_direct_download (codec : Codec) (c : Camera) (sc : StillScript)
    (cim : CameraFilePath) (b bufRaw bufJpeg : Bytes) (leaveOnCamera : Bool) (w : World)
    (hcap : sc.capture = .ok cim) (hname : HasSuffix cim.Name ".jpg" = true)
    (hdl : sc.download = (b, none)) :
    (CaptureDownloadMulti codec c sc bufRaw bufJpeg leaveOnCamera w).err = none ∧
    (CaptureDownloadMulti codec c sc bufRaw bufJpeg leaveOnCamera w).sinks.bufRaw = bufRaw ∧
    (CaptureDownloadMulti codec c sc bufRaw bufJpeg leaveOnCamera w).sinks.bufJpeg
      = bufJpeg ++ b ∧
    (CaptureDownloadMulti codec c sc bufRaw bufJpeg leaveOnCamera w).world.log
      = w.log ++ [.lock, .setIso c.originalIso, .camExit, .captureImage,
          .downloadImage leaveOnCamera, .setIso "Auto", .unlock] ∧
    Event.cr2Decode ∉ [Event.lock, .setIso c.originalIso, .camExit, .captureImage,
          .downloadImage leaveOnCamera, .setIso "Auto", .unlock] ∧
    Event.jpegEncode ∉ [Event.lock, .setIso c.originalIso, .camExit, .captureImage,
          .downloadImage leaveOnCamera, .setIso "Auto", .unlock] := by
  refine ⟨?_, ?_, ?_, ?_, by simp, by simp⟩ <;>
    simp [CaptureDownloadMulti, captureDownloadBody, hcap, hname, hdl, record_log,
      setAuto_log, camExit_world]

/-- Witness for C2: the jpg script on the "400" device. -/
theorem still_jpg_descriptor_direct_download_witness :
    (CaptureDownloadMulti toyCodec cam400 jpgScript [] [] true world400).err = none ∧
    (CaptureDownloadMulti toyCodec cam400 jpgScript [] [] true world400).sinks.bufRaw = [] ∧
    (CaptureDownloadMulti toyCodec cam400 jpgScript [] [] true world400).sinks.bufJpeg
      = [5, 6, 7] :=
  have h := still_jpg_descriptor_direct_download toyCodec cam400 jpgScript
    ⟨"IMG_0001.jpg", "/"⟩ [5, 6, 7] [] [] true world400 rfl (by decide) rfl
  ⟨h.1, h.2.1, h.2.2.1⟩

/-- C3: when the descriptor name does not end in ".jpg" and trigger, download
(yielding `b`), the copy into the raw writer, raw decode and JPEG encode all
succeed, a still capture returns no error, appends exactly `b` to the raw
writer and exactly the encoding of the decoded image to the jpeg writer; with
a codec whose encode/decode round trip keeps the bounds, the jpeg output
decodes to an image with the bounds of the decoded raw image. -/
theorem still_raw_descriptor_pipeline (codec : Codec) (c : Camera) (sc : StillScript)
    (cim : CameraFilePath) (b enc bufRaw bufJpeg : Bytes) (im : Image)
    (leaveOnCamera : Bool) (w : World)
    (hcap : sc.capture = .ok cim) (hname : HasSuffix cim.Name ".jpg" = false)
    (hdl : sc.download = (b, none)) (hcopy : (ioCopy bufRaw b sc.rawCopy).2 = none)
    (hdec : codec.cr2Decode b = .ok im) (henc : codec.jpegEncode im = .ok enc)
    (hwrite : sc.jpegWrite = none)
    (hround : ∀ (i : Image) (bs : Bytes), codec.jpegEncode i = .ok bs →
      ∃ j, codec.jpegDecode bs = .ok j ∧ j.width = i.width ∧ j.height = i.height) :
    (CaptureDownloadMulti codec c sc bufRaw bufJpeg leaveOnCamera w).err = none ∧
    (CaptureDownloadMulti codec c sc bufRaw bufJpeg leaveOnCamera w).sinks.bufRaw
      = bufRaw ++ b ∧
    (CaptureDownloadMulti codec c sc bufRaw bufJpeg leaveOnCamera w).sinks.bufJpeg
      = bufJpeg ++ enc ∧
    ∃ j, codec.jpegDecode enc = .ok j ∧ j.width = im.width ∧ j.height = im.height := by
  have hio := ioCopy_ok bufRaw b sc.rawCopy hcopy
  refine ⟨?_, ?_, ?_, hround im enc henc⟩ <;>
    simp [CaptureDownloadMulti, captureDownloadBody, hcap, hname, hdl, hcopy, hio, hdec,
      henc, hwrite]

/-- Witness for C3: the raw script on the "400" device with the toy codec. -/
theorem still_raw_descriptor_pipeline_witness :
    (CaptureDownloadMulti toyCodec cam400 rawScript [] [] true world400).err = none ∧
    (CaptureDownloadMulti toyCodec cam400 rawScript [] [] true world400).sinks.bufRaw
      = [2, 1, 7, 9] ∧
    (CaptureDownloadMulti toyCodec cam400 rawScript [] [] true world400).sinks.bufJpeg
      = [0xFF, 2, 1, 7, 9] ∧
    ∃ j, toyCodec.jpegDecode [0xFF, 2, 1, 7, 9] = .ok j ∧ j.width = 2 ∧ j.height = 1 :=
  still_raw_descriptor_pipeline toyCodec cam400 rawScript ⟨"IMG_0001.cr2", "/"⟩
    [2, 1, 7, 9] [0xFF, 2, 1, 7, 9] [] [] ⟨2, 1, [7, 9]⟩ true world400
    rfl (by decide) rfl rfl rfl rfl rfl toyCodec_round_trip

/-- C4: when the trigger fails with `e`, a still capture returns the error
"error capturing image" wrapping `e`, its trace is lock, saved iso,
disconnect, trigger, "Auto", unlock (no download is attempted), both writers
are left as they were, and the iso widget reads "Auto" afterwards. -/
theorem still_trigger_failure (codec : Codec) (c : Camera) (sc : StillScript) (e : GoError)
    (bufRaw bufJpeg : Bytes) (leaveOnCamera : Bool) (w : World)
    (hcap : sc.capture = .error e) :
    (CaptureDownloadMulti codec c sc bufRaw bufJpeg leaveOnCamera w).err
      = some (.wrap "error capturing image" e) ∧
    (∀ err, (CaptureDownloadMulti codec c sc bufRaw bufJpeg leaveOnCamera w).err = some err →
      err.Unwrap = some e) ∧
    (CaptureDownloadMulti codec c sc bufRaw bufJpeg leaveOnCamera w).world.log
      = w.log ++ [.lock, .setIso c.originalIso, .camExit, .captureImage,
          .setIso "Auto", .unlock] ∧
    (∀ l, Event.downloadImage l ∉ [Event.lock, .setIso c.originalIso, .camExit,
      .captureImage, .setIso "Auto", .unlock]) ∧
    (CaptureDownloadMulti codec c sc bufRaw bufJpeg leaveOnCamera w).sinks
      = ⟨bufRaw, bufJpeg⟩ ∧
    (CaptureDownloadMulti codec c sc bufRaw bufJpeg leaveOnCamera w).world.iso
      = .str "Auto" := by
  have herr : (CaptureDownloadMulti codec c sc bufRaw bufJpeg leaveOnCamera w).err
      = some (.wrap "error capturing image" e) := by
    simp [CaptureDownloadMulti, captureDownloadBody, hcap]
  refine ⟨herr, ?_, ?_, by simp, ?_, rfl⟩
  · intro err h
    rw [herr] at h
    cases h
    rfl
  · simp [CaptureDownloadMulti, captureDownloadBody, hcap, record_log, setAuto_log,
      camExit_world]
  · simp [CaptureDownloadMulti, captureDownloadBody, hcap]

/-- Witness for C4: the failing-trigger script on the "400" device. -/
theorem still_trigger_failure_witness :
    (CaptureDownloadMulti toyCodec cam400 triggerFailScript [] [] true world400).err
      = some (.wrap "error capturing image" (.msg "gphoto2: could not capture")) ∧
    (CaptureDownloadMulti toyCodec cam400 triggerFailScript [] [] true world400).sinks
      = ⟨[], []⟩ ∧
    (CaptureDownloadMulti toyCodec cam400 triggerFailScript [] [] true world400).world.iso
      = .str "Auto" :=
  have h := still_trigger_failure toyCodec cam400 triggerFailScript
    (.msg "gphoto2: could not capture") [] [] true world400 rfl
  ⟨h.1, h.2.2.2.2.1, h.2.2.2.2.2⟩

/-- C5: on a device whose iso widget reads `v`, a successful `NewCamera`
stores `v` and its last operation is the write of "Auto"; a following still
capture writes `v` and then "Auto" and no other iso value; a following
`Cleanup` records lock, the write of `v`, disconnect, free, unlock; the iso
writes of the whole run are "Auto", `v`, "Auto", `v` and the widget is left
at `v`. -/
theorem baseline_write_sequence (codec : Codec) (name : String) (cs : ConnectScript)
    (v : String) (w0 : World) (sc : StillScript) (bufRaw bufJpeg : Bytes)
    (leaveOnCamera : Bool) (exitErr : Option GoError)
    (hv : w0.iso = .str v) (hconn : cs.connectErr = none) (hget : cs.getErr = none) :
    (NewCamera name cs w0).1 = .ok ⟨v⟩ ∧
    (NewCamera name cs w0).2.log
      = w0.log ++ [.newCamera name, .loadWidgets, .getIso, .setIso "Auto"] ∧
    (NewCamera name cs w0).2.iso = .str "Auto" ∧
    isoWrites (CaptureDownloadMulti codec ⟨v⟩ sc bufRaw bufJpeg leaveOnCamera
        (NewCamera name cs w0).2).world.log
      = isoWrites (NewCamera name cs w0).2.log ++ [v, "Auto"] ∧
    (Cleanup ⟨v⟩ exitErr (CaptureDownloadMulti codec ⟨v⟩ sc bufRaw bufJpeg leaveOnCamera
        (NewCamera name cs w0).2).world).log
      = (CaptureDownloadMulti codec ⟨v⟩ sc bufRaw bufJpeg leaveOnCamera
          (NewCamera name cs w0).2).world.log
        ++ [.lock, .setIso v, .camExit, .camFree, .unlock] ∧
    isoWrites (Cleanup ⟨v⟩ exitErr (CaptureDownloadMulti codec ⟨v⟩ sc bufRaw bufJpeg
        leaveOnCamera (NewCamera name cs w0).2).world).log
      = isoWrites w0.log ++ ["Auto", v, "Auto", v] ∧
    (Cleanup ⟨v⟩ exitErr (CaptureDownloadMulti codec ⟨v⟩ sc bufRaw bufJpeg leaveOnCamera
        (NewCamera name cs w0).2).world).iso = .str v := by
  have hnew : NewCamera name cs w0 = (.ok ⟨v⟩, setAuto ⟨v⟩ true
      (((w0.record (.newCamera name)).record .loadWidgets).record .getIso)) := by
    simp [NewCamera, hconn, hget, record_iso, hv]
  have hlog1 : (NewCamera name cs w0).2.log
      = w0.log ++ [.newCamera name, .loadWidgets, .getIso, .setIso "Auto"] := by
    rw [hnew]
    simp [setAuto_log, record_log]
  have hclean : ∀ w : World, (Cleanup ⟨v⟩ exitErr w).log
      = w.log ++ [.lock, .setIso v, .camExit, .camFree, .unlock] := by
    intro w
    simp [Cleanup, record_log, setAuto_log, camExit_world]
  have hstill := CaptureDownloadMulti_isoWrites codec ⟨v⟩ sc bufRaw bufJpeg leaveOnCamera
    (NewCamera name cs w0).2
  refine ⟨by rw [hnew], hlog1, by rw [hnew]; rfl, hstill, hclean _, ?_, rfl⟩
  rw [hclean, isoWrites_append, hstill, hlog1, isoWrites_append]
  simp [isoWrites]

/-- Witness for C5: the device reading "400" and the raw script. -/
theorem baseline_write_sequence_witness :
    (NewCamera "" ⟨none, none⟩ world400).1 = .ok ⟨"400"⟩ ∧
    isoWrites (Cleanup ⟨"400"⟩ none (CaptureDownloadMulti toyCodec ⟨"400"⟩ rawScript [] []
        true (NewCamera "" ⟨none, none⟩ world400).2).world).log
      = ["Auto", "400", "Auto", "400"] ∧
    (Cleanup ⟨"400"⟩ none (CaptureDownloadMulti toyCodec ⟨"400"⟩ rawScript [] [] true
        (NewCamera "" ⟨none, none⟩ world400).2).world).iso = .str "400" :=
  have h := baseline_write_sequence toyCodec "" ⟨none, none⟩ "400" world400 rawScript [] []
    true none rfl rfl rfl
  ⟨h.1, h.2.2.2.2.2.1, h.2.2.2.2.2.2⟩

/-- C6, as stated, fails: with a failing pre-capture disconnect and all other
steps succeeding, the still capture returns no error, the trigger is issued
and the downloaded bytes reach the jpeg writer. -/
theorem disconnect_failure_not_surfaced :
    exitFailScript.exitErr = some (.msg "gphoto2: I/O problem") ∧
    (CaptureDownloadMulti toyCodec cam400 exitFailScript [] [] true world400).err = none ∧
    Event.captureImage ∈
      (CaptureDownloadMulti toyCodec cam400 exitFailScript [] [] true world400).world.log ∧
    Event.downloadImage true ∈
      (CaptureDownloadMulti toyCodec cam400 exitFailScript [] [] true world400).world.log ∧
    (CaptureDownloadMulti toyCodec cam400 exitFailScript [] [] true world400).sinks.bufJpeg
      = [5, 6, 7] := by
  decide

/-- C6, amended: the result of the pre-capture disconnect is dropped.  A
still capture whose disconnect fails with `e` returns the same error, trace
and writer contents as the same call with a successful disconnect, and the
trigger is always issued right after the disconnect. -/
theorem disconnect_result_dropped (codec : Codec) (c : Camera) (sc : StillScript)
    (e : GoError) (bufRaw bufJpeg : Bytes) (leaveOnCamera : Bool) (w : World) :
    CaptureDownloadMulti codec c { sc with exitErr := some e } bufRaw bufJpeg leaveOnCamera w
      = CaptureDownloadMulti codec c { sc with exitErr := none } bufRaw bufJpeg
          leaveOnCamera w ∧
    ∃ rest, (CaptureDownloadMulti codec c { sc with exitErr := some e } bufRaw bufJpeg
        leaveOnCamera w).world.log
      = w.log ++ [.lock, .setIso c.originalIso, .camExit, .captureImage] ++ rest := by
  refine ⟨rfl, ?_⟩
  obtain ⟨seg, hlog, _⟩ := CaptureDownloadMulti_log codec c { sc with exitErr := some e }
    bufRaw bufJpeg leaveOnCamera w
  exact ⟨seg ++ [.setIso "Auto", .unlock], by rw [hlog]; simp⟩

/-- C7: in a still capture the first failing step decides the result.  A
failed trigger returns "error capturing image" wrapping its error, with no
download and untouched writers.  On a descriptor whose name does not end in
".jpg": a failed download returns "error downloading image from camera"
wrapping its error, no copy, decode or encode runs and both writers are
untouched; a failed raw decode (reached once the download has been copied to
the raw writer) returns "error decoding CR2 image" wrapping its error, the
encoder does not run, the jpeg writer is untouched and the raw writer holds
all downloaded bytes; a failed JPEG encode, in the encoder or in its writer,
returns "error encoding JPEG image" wrapping its error.  Errors carrying two
different of these four contexts render to different messages. -/
theorem still_first_failure_decides (codec : Codec) (c : Camera) (sc : StillScript)
    (bufRaw bufJpeg : Bytes) (leaveOnCamera : Bool) (w : World) :
    (∀ e, sc.capture = .error e →
      (CaptureDownloadMulti codec c sc bufRaw bufJpeg leaveOnCamera w).err
        = some (.wrap "error capturing image" e) ∧
      (CaptureDownloadMulti codec c sc bufRaw bufJpeg leaveOnCamera w).world.log
        = w.log ++ [.lock, .setIso c.originalIso, .camExit, .captureImage,
            .setIso "Auto", .unlock] ∧
      (CaptureDownloadMulti codec c sc bufRaw bufJpeg leaveOnCamera w).sinks
        = ⟨bufRaw, bufJpeg⟩) ∧
    (∀ cim, sc.capture = .ok cim → HasSuffix cim.Name ".jpg" = false →
      (∀ e, sc.download.2 = some e →
        (CaptureDownloadMulti codec c sc bufRaw bufJpeg leaveOnCamera w).err
          = some (.wrap "error downloading image from camera" e) ∧
        (CaptureDownloadMulti codec c sc bufRaw bufJpeg leaveOnCamera w).world.log
          = w.log ++ [.lock, .setIso c.originalIso, .camExit, .captureImage,
              .downloadImage leaveOnCamera, .setIso "Auto", .unlock] ∧
        (CaptureDownloadMulti codec c sc bufRaw bufJpeg leaveOnCamera w).sinks
          = ⟨bufRaw, bufJpeg⟩) ∧
      (∀ e, sc.download.2 = none → (ioCopy bufRaw sc.download.1 sc.rawCopy).2 = none →
        codec.cr2Decode sc.download.1 = .error e →
        (CaptureDownloadMulti codec c sc bufRaw bufJpeg leaveOnCamera w).err
          = some (.wrap "error decoding CR2 image" e) ∧
        (CaptureDownloadMulti codec c sc bufRaw bufJpeg leaveOnCamera w).world.log
          = w.log ++ [.lock, .setIso c.originalIso, .camExit, .captureImage,
              .downloadImage leaveOnCamera, .copyRaw, .cr2Decode, .setIso "Auto", .unlock] ∧
        (CaptureDownloadMulti codec c sc bufRaw bufJpeg leaveOnCamera w).sinks
          = ⟨bufRaw ++ sc.download.1, bufJpeg⟩) ∧
      (∀ im e, sc.download.2 = none → (ioCopy bufRaw sc.download.1 sc.rawCopy).2 = none →
        codec.cr2Decode sc.download.1 = .ok im →
        (codec.jpegEncode im = .error e ∨
          ∃ enc n, codec.jpegEncode im = .ok enc ∧ sc.jpegWrite = some (n, e)) →
        (CaptureDownloadMulti codec c sc bufRaw bufJpeg leaveOnCamera w).err
          = some (.wrap "error encoding JPEG image" e) ∧
        (CaptureDownloadMulti codec c sc bufRaw bufJpeg leaveOnCamera w).world.log
          = w.log ++ [.lock, .setIso c.originalIso, .camExit, .captureImage,
              .downloadImage leaveOnCamera, .copyRaw, .cr2Decode, .jpegEncode,
              .setIso "Auto", .unlock] ∧
        (CaptureDownloadMulti codec c sc bufRaw bufJpeg leaveOnCamera w).sinks.bufRaw
          = bufRaw ++ sc.download.1)) ∧
    (∀ c1 ∈ stepContexts, ∀ c2 ∈ stepContexts, c1 ≠ c2 →
      ∀ e1 e2, (GoError.wrap c1 e1).Error ≠ (GoError.wrap c2 e2).Error) := by
  refine ⟨?_, ?_, ?_⟩
  · intro e hcap
    refine ⟨?_, ?_, ?_⟩ <;>
      simp [CaptureDownloadMulti, captureDownloadBody, hcap, record_log, setAuto_log,
        camExit_world]
  · intro cim hcap hname
    refine ⟨?_, ?_, ?_⟩
    · intro e hdl
      refine ⟨?_, ?_, ?_⟩ <;>
        simp [CaptureDownloadMulti, captureDownloadBody, hcap, hname, hdl, record_log,
          setAuto_log, camExit_world]
    · intro e hdl hcopy hdec
      have hio := ioCopy_ok bufRaw sc.download.1 sc.rawCopy hcopy
      refine ⟨?_, ?_, ?_⟩ <;>
        simp [CaptureDownloadMulti, captureDownloadBody, hcap, hname, hdl, hcopy, hio, hdec,
          record_log, setAuto_log, camExit_world]
    · intro im e hdl hcopy hdec henc
      have hio := ioCopy_ok bufRaw sc.download.1 sc.rawCopy hcopy
      rcases henc with henc | ⟨enc, n, henc, hwr⟩
      · refine ⟨?_, ?_, ?_⟩ <;>
          simp [CaptureDownloadMulti, captureDownloadBody, hcap, hname, hdl, hcopy, hio, hdec,
            henc, record_log, setAuto_log, camExit_world]
      · refine ⟨?_, ?_, ?_⟩ <;>
          simp [CaptureDownloadMulti, captureDownloadBody, hcap, hname, hdl, hcopy, hio, hdec,
            henc, hwr, record_log, setAuto_log, camExit_world]
  · intro c1 h1 c2 h2 hne e1 e2
    simp only [stepContexts, List.mem_cons, List.mem_singleton, List.not_mem_nil,
      or_false] at h1 h2
    rcases h1 with rfl | rfl | rfl | rfl <;> rcases h2 with rfl | rfl | rfl | rfl <;>
      first
      | exact absurd rfl hne
      | exact wrap_Error_ne _ _ 8 e1 e2 (by decide) (by decide) (by decide)

/-- Witness for C7: a raw descriptor whose download is too short to decode;
the raw writer holds the downloaded byte, the jpeg writer nothing. -/
theorem still_first_failure_decides_witness :
    (CaptureDownloadMulti toyCodec cam400 decodeFailScript [] [] true world400).err
      = some (.wrap "error decoding CR2 image" (.msg "cr2: short file")) ∧
    (CaptureDownloadMulti toyCodec cam400 decodeFailScript [] [] true world400).sinks
      = ⟨[9], []⟩ :=
  have h := (still_first_failure_decides toyCodec cam400 decodeFailScript [] [] true
    world400).2.1 ⟨"IMG_0003.cr2", "/"⟩ rfl (by decide)
  have hd := h.2.1 (.msg "cr2: short file") rfl rfl rfl
  ⟨hd.1, hd.2.2⟩

/-- C8, as stated, fails: two `Cleanup` calls on the same session disconnect
the device twice and free it twice. -/
theorem double_cleanup_frees_twice :
    (Cleanup cam400 none (Cleanup cam400 none world400)).log.count .camFree = 2 ∧
    (Cleanup cam400 none (Cleanup cam400 none world400)).log.count .camExit = 2 := by
  decide

/-- C8, amended: every `Cleanup` call disconnects and frees the device
exactly once, whatever the state it starts from, so two calls on the same
session add two disconnects and two frees to the trace. -/
theorem cleanup_releases_once_per_call (c : Camera) (e1 e2 : Option GoError) (w : World) :
    (Cleanup c e1 w).log.count .camFree = w.log.count .camFree + 1 ∧
    (Cleanup c e1 w).log.count .camExit = w.log.count .camExit + 1 ∧
    (Cleanup c e2 (Cleanup c e1 w)).log.count .camFree = w.log.count .camFree + 2 ∧
    (Cleanup c e2 (Cleanup c e1 w)).log.count .camExit = w.log.count .camExit + 2 := by
  simp only [Cleanup_log, List.count_append]
  simp [List.count_cons]

/-- C9, as stated, fails: when the trigger fails, the still capture returns
"error capturing image" wrapping the device error, and `captureAndSave`
returns a different error, that one wrapped once more. -/
theorem save_error_not_passed_unchanged :
    (CaptureDownloadMulti toyCodec cam400 saveTriggerFailScript.still [] [] true world400).err
      = some (.wrap "error capturing image" (.msg "gphoto2: could not capture")) ∧
    (captureAndSave toyCodec cam400 saveTriggerFailScript [] world400).err
      = some (.wrap "error capturing image"
          (.wrap "error capturing image" (.msg "gphoto2: could not capture"))) ∧
    (captureAndSave toyCodec cam400 saveTriggerFailScript [] world400).err
      ≠ (CaptureDownloadMulti toyCodec cam400 saveTriggerFailScript.still [] [] true
          world400).err := by
  decide

/-- C9, amended: when both files were created and the still capture returns
`e`, `captureAndSave` returns "error capturing image" wrapping `e` (so `e` is
what `Unwrap` gives back) and an empty file name, writes nothing to the
response writer and nothing to the jpg file, which stays empty. -/
theorem save_wraps_capture_error (codec : Codec) (c : Camera) (sc : SaveScript)
    (e : GoError) (wJpg : Bytes) (w : World)
    (hraw : sc.createRaw = none) (hjpg : sc.createJpg = none)
    (hstill : (CaptureDownloadMulti codec c sc.still [] [] true w).err = some e) :
    (captureAndSave codec c sc wJpg w).err = some (.wrap "error capturing image" e) ∧
    (∀ err, (captureAndSave codec c sc wJpg w).err = some err → err.Unwrap = some e) ∧
    (captureAndSave codec c sc wJpg w).fname = "" ∧
    (captureAndSave codec c sc wJpg w).wJpg = wJpg ∧
    (captureAndSave codec c sc wJpg w).fJpg
      = some (capturesFolder ++ "/" ++ sc.timestamp ++ ".jpg", []) := by
  have herr : (captureAndSave codec c sc wJpg w).err
      = some (.wrap "error capturing image" e) := by
    simp [captureAndSave, hraw, hjpg, hstill]
  refine ⟨herr, ?_, ?_, ?_, ?_⟩
  · intro err h
    rw [herr] at h
    cases h
    rfl
  all_goals simp [captureAndSave, hraw, hjpg, hstill]

/-- Witness for C9: the failing-trigger save script on the "400" device. -/
theorem save_wraps_capture_error_witness :
    (captureAndSave toyCodec cam400 saveTriggerFailScript [1] world400).err
      = some (.wrap "error capturing image"
          (.wrap "error capturing image" (.msg "gphoto2: could not capture"))) ∧
    (captureAndSave toyCodec cam400 saveTriggerFailScript [1] world400).wJpg = [1] ∧
    (captureAndSave toyCodec cam400 saveTriggerFailScript [1] world400).fJpg
      = some ("captures/20240101_120000.jpg", []) :=
  have h := save_wraps_capture_error toyCodec cam400 saveTriggerFailScript
    (.wrap "error capturing image" (.msg "gphoto2: could not capture")) [1] world400
    rfl rfl rfl
  ⟨h.1, h.2.2.2.1, h.2.2.2.2.trans (by decide)⟩

end Skbot
